import Mathlib

/-!
Shallow embedding of `crates/starknet/src/contract.rs`: the Starknet
contract-discovery pass and the `starknet_keccak` field-element hash.

Bytes are modelled as natural numbers (values `< 256`), 64-bit lanes as
natural numbers reduced modulo `2 ^ 64`, and big integers (`BigUint`) as
`Nat`.  Fallible queries of the semantic database are modelled with
`Option`, and `anyhow::Result` with `Except String`.
-/

namespace Contract

/-- Reduce a natural number to a 64-bit word, as wrapping `u64` arithmetic does. -/
def u64 (n : Nat) : Nat := n % 2 ^ 64

/-- Left rotation of a 64-bit word by `r` positions (`u64::rotate_left`). -/
def rotl64 (n r : Nat) : Nat := u64 (n <<< r) ||| (u64 n >>> (64 - r))

/-- The 24 round constants of the keccak-f[1600] permutation. -/
def keccakRC : List Nat :=
  [0x0000000000000001, 0x0000000000008082, 0x800000000000808a, 0x8000000080008000,
   0x000000000000808b, 0x0000000080000001, 0x8000000080008081, 0x8000000000008009,
   0x000000000000008a, 0x0000000000000088, 0x0000000080008009, 0x000000008000000a,
   0x000000008000808b, 0x800000000000008b, 0x8000000000008089, 0x8000000000008003,
   0x8000000000008002, 0x8000000000000080, 0x000000000000800a, 0x800000008000000a,
   0x8000000080008081, 0x8000000000008080, 0x0000000080000001, 0x8000000080008008]

/-- The rotation offsets of the rho step, indexed by lane coordinates `x`, `y`. -/
def rhoOffset (x y : Nat) : Nat :=
  (([[0, 36, 3, 41, 18],
     [1, 44, 10, 45, 2],
     [62, 6, 43, 15, 61],
     [28, 55, 25, 21, 56],
     [27, 20, 39, 8, 14]].getD x []).getD y 0)

/-- The keccak state: 25 lanes of 64 bits; lane `(x, y)` is at index `x + 5 * y`. -/
def KState : Type := List Nat

/-- The theta step of keccak-f[1600]. -/
def theta (A : KState) : KState :=
  let C := (List.range 5).map fun x =>
    A.getD x 0 ^^^ A.getD (x + 5) 0 ^^^ A.getD (x + 10) 0 ^^^
      A.getD (x + 15) 0 ^^^ A.getD (x + 20) 0
  let D := (List.range 5).map fun x =>
    C.getD ((x + 4) % 5) 0 ^^^ rotl64 (C.getD ((x + 1) % 5) 0) 1
  (List.range 25).map fun i => A.getD i 0 ^^^ D.getD (i % 5) 0

/-- The combined rho and pi steps of keccak-f[1600]. -/
def rhoPi (A : KState) : KState :=
  (List.range 25).foldl
    (fun B i =>
      let x := i % 5
      let y := i / 5
      B.set (y + 5 * ((2 * x + 3 * y) % 5)) (rotl64 (A.getD i 0) (rhoOffset x y)))
    (List.replicate 25 0)

/-- The chi step of keccak-f[1600]; complement is XOR against all 64 ones. -/
def chi (B : KState) : KState :=
  (List.range 25).map fun i =>
    let x := i % 5
    let y := i / 5
    B.getD i 0 ^^^
      ((B.getD ((x + 1) % 5 + 5 * y) 0 ^^^ (2 ^ 64 - 1)) &&& B.getD ((x + 2) % 5 + 5 * y) 0)

/-- The iota step: XOR the round constant into lane `(0, 0)`. -/
def iotaStep (rc : Nat) (A : KState) : KState :=
  A.set 0 (A.headD 0 ^^^ rc)

/-- One round of keccak-f[1600]. -/
def keccakRound (A : KState) (rc : Nat) : KState :=
  iotaStep rc (chi (rhoPi (theta A)))

/-- The full keccak-f[1600] permutation: 24 rounds. -/
def keccakF (A : KState) : KState :=
  keccakRC.foldl keccakRound A

/-- Keccak multi-rate padding for rate 136 bytes (the pre-SHA3 `0x01 … 0x80`
pad used by the Ethereum-style keccak, not the NIST `0x06` pad). -/
def keccakPad (msg : List Nat) : List Nat :=
  let p := 136 - msg.length % 136
  if p = 1 then msg ++ [0x81]
  else msg ++ [0x01] ++ List.replicate (p - 2) 0 ++ [0x80]

/-- Lane `i` of a 136-byte block, read little-endian; bytes are reduced
modulo 256 as `u8` values are. -/
def laneOf (block : List Nat) (i : Nat) : Nat :=
  (List.range 8).foldr (fun j acc => block.getD (8 * i + j) 0 % 256 + 256 * acc) 0

/-- XOR one 136-byte block into the first 17 lanes of the state. -/
def absorbBlock (st : KState) (block : List Nat) : KState :=
  (List.range 25).map fun i =>
    if i < 17 then st.getD i 0 ^^^ laneOf block i else st.getD i 0

/-- The Keccak-256 digest of a byte sequence: absorb all padded blocks, then
squeeze the first 32 bytes of the state (lanes 0–3, little-endian). -/
def keccak256 (msg : List Nat) : List Nat :=
  let p := keccakPad msg
  let nb := p.length / 136
  let st := (List.range nb).foldl
    (fun st k => keccakF (absorbBlock st ((p.drop (136 * k)).take 136)))
    (List.replicate 25 0)
  (List.range 32).map (fun i => st.getD (i / 8) 0 >>> (8 * (i % 8)) % 256)

/-- `BigUint::from_bytes_be`: interpret a byte list as a big-endian unsigned
integer. -/
def fromBytesBE (l : List Nat) : Nat :=
  l.foldl (fun acc b => 256 * acc + b % 256) 0

/-- `starknet_keccak` from `contract.rs`: hash with Keccak-256, mask the first
digest byte with 3 (`*result.first_mut().unwrap() &= 3;`), and read the result
big-endian.  `first_mut().unwrap()` panics on an empty digest, modelled as
`none`. -/
def starknet_keccak (data : List Nat) : Option Nat :=
  match keccak256 data with
  | [] => none
  | b :: rest => some (fromBytesBE ((b &&& 3) :: rest))

/-- `CrateId` from the `filesystem` crate: an opaque compilation-unit id. -/
structure CrateId where
  id : Nat
deriving DecidableEq

/-- `SubmoduleId` from the `defs` crate: an opaque submodule id. -/
structure SubmoduleId where
  id : Nat
deriving DecidableEq

/-- `TraitId` from the `defs` crate: an opaque trait id. -/
structure TraitId where
  id : Nat
deriving DecidableEq

/-- `FreeFunctionId` from the `defs` crate: an opaque free-function id. -/
structure FreeFunctionId where
  id : Nat
deriving DecidableEq

/-- Modelled from the spec: a module reference into the Compiled-Program
Index's module tree, distinguishing the submodule variant from other
module-tree node kinds (the `defs` crate's `ModuleId` is not under `src/`). -/
inductive ModuleId where
  | CrateRoot : CrateId → ModuleId
  | Submodule : SubmoduleId → ModuleId
deriving DecidableEq

/-- Modelled from the spec: a module item reference, whose variants include
at least submodule, trait and free function (the `defs` crate's
`ModuleItemId` is not under `src/`). -/
inductive ModuleItemId where
  | Submodule : SubmoduleId → ModuleItemId
  | Trait : TraitId → ModuleItemId
  | FreeFunction : FreeFunctionId → ModuleItemId
  | Other : Nat → ModuleItemId
deriving DecidableEq

/-- Modelled from the spec: an attribute attached to a module, identified by
its name (the `semantic` crate's `Attribute` is not under `src/`). -/
structure Attribute where
  id : String
deriving DecidableEq

/-- Modelled from the spec: the item set of a module, a mapping from item
name to item reference, kept as an association list in the order the Index
enumerates it. -/
structure ModuleItems where
  items : List (String × ModuleItemId)
deriving DecidableEq

/-- Modelled from the spec: the Compiled-Program Index (`SemanticGroup`),
an external collaborator exposed only through queries.  Fallible queries
(`Maybe` values in the source, converted by `to_option`) are `Option`s. -/
structure SemanticGroup where
  crate_modules : CrateId → List ModuleId
  module_submodules : ModuleId → Option (List ModuleId)
  module_attributes : ModuleId → Option (List Attribute)
  module_items : ModuleId → Option ModuleItems
  module_free_functions : ModuleId → Option (List FreeFunctionId)
  submodule_module : SubmoduleId → ModuleId
  submodule_name : SubmoduleId → String

/-- Modelled from the spec: the contract marker attribute name, one of the
three fixed marker constants of `crate::plugin` (not under `src/`). -/
def CONTRACT_ATTR : String := "contract"

/-- Modelled from the spec: the name under which the external-functions
submodule is filed inside the generated module (`crate::plugin`). -/
def EXTERNAL_MODULE : String := "__external"

/-- Modelled from the spec: the name under which the ABI trait is filed
inside the generated module (`crate::plugin`). -/
def ABI_TRAIT : String := "__abi"

/-- `ContractDeclaration` from `contract.rs`: a declaration of a contract,
holding the id of the module that defines it. -/
structure ContractDeclaration where
  submodule_id : SubmoduleId
deriving DecidableEq

/-- `ContractDeclaration::module_id`. -/
def ContractDeclaration.module_id (self : ContractDeclaration) : ModuleId :=
  ModuleId.Submodule self.submodule_id

/-- `find_contracts` from `contract.rs`: scan the given crates for inline
modules annotated as contracts.  The nested `for` loops pushing into the
`contracts` vector are folds appending to an accumulator; a failing
`module_submodules` query `continue`s past the module, a failing
`module_attributes` query skips just the submodule. -/
def find_contracts (db : SemanticGroup) (crate_ids : List CrateId) :
    List ContractDeclaration :=
  crate_ids.foldl
    (fun contracts crate_id =>
      let modules := db.crate_modules crate_id
      modules.foldl
        (fun contracts module_id =>
          match db.module_submodules module_id with
          | none => contracts
          | some submodules =>
            submodules.foldl
              (fun contracts m =>
                match m with
                | ModuleId.Submodule submodule_id =>
                  match db.module_attributes m with
                  | some attrs =>
                    if attrs.any (fun attr => attr.id == CONTRACT_ATTR) then
                      contracts ++ [{ submodule_id := submodule_id }]
                    else contracts
                  | none => contracts
                | _ => contracts)
              contracts)
        contracts)
    []

/-- `get_generated_contract_module` from `contract.rs`: look up the item
`"__generated__" ++ name` in the contract's parent module and require it to
be a submodule. -/
def get_generated_contract_module (db : SemanticGroup)
    (contract : ContractDeclaration) : Except String ModuleId :=
  let parent_module_id := db.submodule_module contract.submodule_id
  let contract_name := db.submodule_name contract.submodule_id
  let generated_module_name := "__generated__" ++ contract_name
  match db.module_items parent_module_id with
  | none => Except.error "Failed to get root module items."
  | some mi =>
    match mi.items.lookup generated_module_name with
    | some (ModuleItemId.Submodule generated_module_id) =>
      Except.ok (ModuleId.Submodule generated_module_id)
    | _ =>
      Except.error ("Failed to get generated module " ++ generated_module_name ++ ".")

/-- `get_external_functions` from `contract.rs`: the list of external
functions of a contract, read from the `EXTERNAL_MODULE` submodule of its
generated module. -/
def get_external_functions (db : SemanticGroup)
    (contract : ContractDeclaration) : Except String (List FreeFunctionId) :=
  match get_generated_contract_module db contract with
  | Except.error e => Except.error e
  | Except.ok generated_module_id =>
    match db.module_items generated_module_id with
    | none => Except.error "Failed to get generated module items."
    | some mi =>
      match mi.items.lookup EXTERNAL_MODULE with
      | some (ModuleItemId.Submodule external_module_id) =>
        match db.module_free_functions (ModuleId.Submodule external_module_id) with
        | some fns => Except.ok fns
        | none => Except.error "Failed to get module items."
      | _ => Except.error "Failed to get the entry points module."

/-- `get_abi` from `contract.rs`: the ABI trait of a contract, read from the
`ABI_TRAIT` item of its generated module. -/
def get_abi (db : SemanticGroup)
    (contract : ContractDeclaration) : Except String TraitId :=
  match get_generated_contract_module db contract with
  | Except.error e => Except.error e
  | Except.ok generated_module_id =>
    match db.module_items generated_module_id with
    | none => Except.error "Failed to get generated module items."
    | some mi =>
      match mi.items.lookup ABI_TRAIT with
      | some (ModuleItemId.Trait trait_id) => Except.ok trait_id
      | _ => Except.error "Failed to get the ABI trait."

/-- The reference computation of claim C8, following the spec's words: take
the 32-byte Keccak-256 digest, replace its most significant byte `b` (the
first byte of the big-endian buffer) by `b &&& 3`, leave the other bytes
unchanged, and read the buffer as a big-endian unsigned integer. -/
def starknet_keccak_ref (data : List Nat) : Nat :=
  let digest := keccak256 data
  fromBytesBE (digest.set 0 (digest.headD 0 &&& 3))

/-- The generated-module lookup key of a contract:
`"__generated__" ++ <the contract submodule's simple name>`. -/
def generated_module_name (db : SemanticGroup) (c : ContractDeclaration) : String :=
  "__generated__" ++ db.submodule_name c.submodule_id

/-- What one enumerated submodule contributes to discovery: a declaration
when it carries the submodule-variant tag, its attribute query succeeds and
the attributes contain the contract marker; nothing otherwise. -/
def submoduleContribution (db : SemanticGroup) (m : ModuleId) :
    Option ContractDeclaration :=
  match m with
  | ModuleId.Submodule submodule_id =>
    match db.module_attributes m with
    | some attrs =>
      if attrs.any (fun attr => attr.id == CONTRACT_ATTR) then
        some { submodule_id := submodule_id }
      else none
    | none => none
  | _ => none

/-- What one module of a crate contributes to discovery: nothing when its
submodule query fails, otherwise the contributions of its submodules in
enumeration order. -/
def moduleContribution (db : SemanticGroup) (module_id : ModuleId) :
    List ContractDeclaration :=
  match db.module_submodules module_id with
  | none => []
  | some submodules => submodules.filterMap (submoduleContribution db)

/-- Discovery as §4.2 of the spec words it: the concatenation over
compilation units (in the given order), over each unit's modules (in the
order the Index enumerates them), and over each module's submodules (in the
order the Index enumerates them), of a declaration per submodule carrying
the contract marker attribute. -/
def contractsSpec (db : SemanticGroup) (crate_ids : List CrateId) :
    List ContractDeclaration :=
  crate_ids.flatMap fun crate_id =>
    (db.crate_modules crate_id).flatMap fun module_id =>
      ((db.module_submodules module_id).getD []).filterMap fun m =>
        match m with
        | ModuleId.Submodule submodule_id =>
          match db.module_attributes m with
          | some attrs =>
            if attrs.any (fun attr => attr.id == CONTRACT_ATTR) then
              some { submodule_id := submodule_id }
            else none
          | none => none
        | _ => none

/-- A one-contract index whose root module's items never resolve: every
query fails.  Used to exhibit concrete behaviour of the resolver. -/
def dbUnresolved : SemanticGroup where
  crate_modules := fun _ => []
  module_submodules := fun _ => none
  module_attributes := fun _ => none
  module_items := fun _ => none
  module_free_functions := fun _ => none
  submodule_module := fun _ => ModuleId.CrateRoot ⟨0⟩
  submodule_name := fun _ => "foo"

/-- The contract declaration used with the concrete test indexes. -/
def c0 : ContractDeclaration := ⟨⟨0⟩⟩

/-- A small fully-populated index: crate 0 has one root module whose
submodules are the marked contract `foo` (submodule 0), the unmarked
module `bar` (submodule 9) and a non-submodule entry; the root module
files the generated module `__generated__foo` (submodule 1), which holds
the external-functions submodule (submodule 2, functions 100 and 101) and
the ABI trait (trait 7). -/
def dbFull : SemanticGroup where
  crate_modules := fun c => if c.id = 0 then [ModuleId.CrateRoot ⟨0⟩] else []
  module_submodules := fun m =>
    match m with
    | ModuleId.CrateRoot ⟨0⟩ =>
      some [ModuleId.Submodule ⟨0⟩, ModuleId.Submodule ⟨9⟩, ModuleId.CrateRoot ⟨1⟩]
    | _ => none
  module_attributes := fun m =>
    match m with
    | ModuleId.Submodule ⟨0⟩ => some [⟨"contract"⟩]
    | ModuleId.Submodule ⟨9⟩ => some [⟨"other"⟩]
    | _ => none
  module_items := fun m =>
    match m with
    | ModuleId.CrateRoot ⟨0⟩ =>
      some ⟨[("__generated__foo", ModuleItemId.Submodule ⟨1⟩)]⟩
    | ModuleId.Submodule ⟨1⟩ =>
      some ⟨[("__external", ModuleItemId.Submodule ⟨2⟩),
             ("__abi", ModuleItemId.Trait ⟨7⟩)]⟩
    | _ => none
  module_free_functions := fun m =>
    match m with
    | ModuleId.Submodule ⟨2⟩ => some [⟨100⟩, ⟨101⟩]
    | _ => none
  submodule_module := fun _ => ModuleId.CrateRoot ⟨0⟩
  submodule_name := fun s => if s.id = 0 then "foo" else "bar"

/-- `dbFull` with the ABI trait entry removed from the generated module:
the external-functions submodule is still present. -/
def dbNoAbi : SemanticGroup :=
  { dbFull with
    module_items := fun m =>
      match m with
      | ModuleId.CrateRoot ⟨0⟩ =>
        some ⟨[("__generated__foo", ModuleItemId.Submodule ⟨1⟩)]⟩
      | ModuleId.Submodule ⟨1⟩ =>
        some ⟨[("__external", ModuleItemId.Submodule ⟨2⟩)]⟩
      | _ => none }

end Contract

namespace Contract

theorem keccak256_length (msg : List Nat) : (keccak256 msg).length = 32 := by
  simp [keccak256]

theorem keccak256_bytes_lt (msg : List Nat) : ∀ b ∈ keccak256 msg, b < 256 := by
  intro b hb
  simp only [keccak256, List.mem_map, List.mem_range] at hb
  obtain ⟨i, -, rfl⟩ := hb
  exact Nat.mod_lt _ (by norm_num)

theorem fromBytesBE_foldl_acc (l : List Nat) (acc : Nat) :
    l.foldl (fun acc b => 256 * acc + b % 256) acc =
      acc * 256 ^ l.length + fromBytesBE l := by
  induction l generalizing acc with
  | nil => simp [fromBytesBE]
  | cons b l ih =>
    simp only [List.foldl_cons, List.length_cons, fromBytesBE]
    rw [ih (256 * acc + b % 256), ih (256 * 0 + b % 256)]
    ring

theorem fromBytesBE_cons (b : Nat) (l : List Nat) :
    fromBytesBE (b :: l) = b % 256 * 256 ^ l.length + fromBytesBE l := by
  simp only [fromBytesBE, List.foldl_cons]
  rw [fromBytesBE_foldl_acc]
  ring_nf
  simp [fromBytesBE]

theorem fromBytesBE_lt (l : List Nat) : fromBytesBE l < 256 ^ l.length := by
  induction l with
  | nil => simp [fromBytesBE]
  | cons b l ih =>
    rw [fromBytesBE_cons]
    have hb : b % 256 ≤ 255 := Nat.le_of_lt_succ (Nat.mod_lt _ (by norm_num))
    calc b % 256 * 256 ^ l.length + fromBytesBE l
        ≤ 255 * 256 ^ l.length + fromBytesBE l := by
          exact Nat.add_le_add_right (Nat.mul_le_mul_right _ hb) _
      _ < 255 * 256 ^ l.length + 256 ^ l.length := Nat.add_lt_add_left ih _
      _ = 256 ^ (l.length + 1) := by ring
      _ = 256 ^ (b :: l).length := by simp

/-- C1: for every byte sequence `s` (including the empty sequence),
`starknet_keccak s` terminates without any failure (the digest is never
empty, so the `unwrap` cannot panic) and returns a non-negative integer
strictly less than `2 ^ 250`. -/
theorem C1_starknet_keccak_total_and_bounded (s : List Nat) :
    ∃ v, starknet_keccak s = some v ∧ v < 2 ^ 250 := by
  have hlen := keccak256_length s
  cases hd : keccak256 s with
  | nil => rw [hd] at hlen; simp at hlen
  | cons b rest =>
    refine ⟨fromBytesBE ((b &&& 3) :: rest), by simp [starknet_keccak, hd], ?_⟩
    have hrest : rest.length = 31 := by rw [hd] at hlen; simpa using hlen
    rw [fromBytesBE_cons, hrest]
    have hm : (b &&& 3) % 256 ≤ 3 := le_trans (Nat.mod_le _ _) Nat.and_le_right
    have hfr : fromBytesBE rest < 256 ^ 31 := by
      have h := fromBytesBE_lt rest
      rwa [hrest] at h
    calc (b &&& 3) % 256 * 256 ^ 31 + fromBytesBE rest
        ≤ 3 * 256 ^ 31 + fromBytesBE rest :=
          Nat.add_le_add_right (Nat.mul_le_mul_right _ hm) _
      _ < 3 * 256 ^ 31 + 256 ^ 31 := Nat.add_lt_add_left hfr _
      _ = 2 ^ 250 := by norm_num

/-- C8: `starknet_keccak s` equals the reference computation of the spec:
the Keccak-256 digest of `s` with its most significant byte `b` replaced by
`b &&& 3`, the other 31 bytes unchanged, read as a big-endian unsigned
integer. -/
theorem C8_starknet_keccak_matches_reference (s : List Nat) :
    starknet_keccak s = some (starknet_keccak_ref s) := by
  have hlen := keccak256_length s
  cases hd : keccak256 s with
  | nil => rw [hd] at hlen; simp at hlen
  | cons b rest => simp [starknet_keccak, starknet_keccak_ref, hd]

theorem foldl_append_of_step {α β : Type} (f : List β → α → List β)
    (g : α → List β) (hf : ∀ acc x, f acc x = acc ++ g x)
    (l : List α) (acc : List β) :
    l.foldl f acc = acc ++ l.flatMap g := by
  induction l generalizing acc with
  | nil => simp
  | cons x l ih =>
    rw [List.foldl_cons, hf, ih, List.flatMap_cons, List.append_assoc]

theorem flatMap_option_toList {α β : Type} (g : α → Option β) (l : List α) :
    (l.flatMap fun x => (g x).toList) = l.filterMap g := by
  induction l with
  | nil => simp
  | cons x l ih => cases hg : g x <;> simp [hg, ih]

theorem find_contracts_eq (db : SemanticGroup) (crate_ids : List CrateId) :
    find_contracts db crate_ids =
      crate_ids.flatMap fun crate_id =>
        (db.crate_modules crate_id).flatMap (moduleContribution db) := by
  unfold find_contracts
  refine (foldl_append_of_step _ _ ?_ crate_ids []).trans (List.nil_append _)
  intro acc crate_id
  dsimp only
  refine foldl_append_of_step _ _ ?_ _ acc
  intro acc m
  dsimp only
  cases hs : db.module_submodules m with
  | none => simp [moduleContribution, hs]
  | some submodules =>
    refine ((foldl_append_of_step _
        (fun m => (submoduleContribution db m).toList) ?_ _ acc).trans ?_)
    · intro acc m
      dsimp only
      cases m with
      | CrateRoot c => simp [submoduleContribution]
      | Submodule sid =>
        cases ha : db.module_attributes (ModuleId.Submodule sid) with
        | none => simp [submoduleContribution, ha]
        | some attrs =>
          by_cases hmark : attrs.any (fun attr => attr.id == CONTRACT_ATTR) <;>
            simp [submoduleContribution, ha, hmark]
    · rw [flatMap_option_toList, moduleContribution, hs]

theorem contractsSpec_eq (db : SemanticGroup) (crate_ids : List CrateId) :
    contractsSpec db crate_ids =
      crate_ids.flatMap fun crate_id =>
        (db.crate_modules crate_id).flatMap (moduleContribution db) := by
  unfold contractsSpec
  congr 1
  funext crate_id
  congr 1
  funext module_id
  cases hs : db.module_submodules module_id with
  | none => simp [moduleContribution, hs]
  | some submodules =>
    rw [moduleContribution, hs, Option.getD_some]
    rfl

/-- C2: discovery returns one declaration per enumerated submodule carrying
the contract marker attribute, none for unmarked modules, and the result
order is the concatenation over compilation units in the given order, over
each unit's modules and each module's submodules in the order the Index
enumerates them — `find_contracts` equals the discovery pass as §4.2 of the
spec words it. -/
theorem C2_find_contracts_matches_spec (db : SemanticGroup)
    (crate_ids : List CrateId) :
    find_contracts db crate_ids = contractsSpec db crate_ids :=
  (find_contracts_eq db crate_ids).trans (contractsSpec_eq db crate_ids).symm

/-- C6: `find_contracts` is total (it returns a plain list, never an
error); a module whose submodule query fails contributes nothing while the
scan continues with the remaining modules, a submodule whose attribute
query fails is skipped alone, a module reference without the
submodule-variant tag is never considered, and the whole result is the
concatenation of the per-module contributions. -/
theorem C6_find_contracts_never_fails (db : SemanticGroup)
    (crate_ids : List CrateId) :
    (∀ mid, db.module_submodules mid = none → moduleContribution db mid = []) ∧
    (∀ m, db.module_attributes m = none → submoduleContribution db m = none) ∧
    (∀ m, (∀ s, m ≠ ModuleId.Submodule s) → submoduleContribution db m = none) ∧
    find_contracts db crate_ids =
      crate_ids.flatMap fun crate_id =>
        (db.crate_modules crate_id).flatMap (moduleContribution db) := by
  refine ⟨fun mid h => by simp [moduleContribution, h],
    fun m h => ?_, fun m h => ?_, find_contracts_eq db crate_ids⟩
  · cases m with
    | CrateRoot c => rfl
    | Submodule s => simp [submoduleContribution, h]
  · cases m with
    | CrateRoot c => rfl
    | Submodule s => exact absurd rfl (h s)

theorem ggcm_ok_iff (db : SemanticGroup) (c : ContractDeclaration) (m : ModuleId) :
    get_generated_contract_module db c = Except.ok m ↔
      ∃ mi g, db.module_items (db.submodule_module c.submodule_id) = some mi ∧
        mi.items.lookup (generated_module_name db c) =
          some (ModuleItemId.Submodule g) ∧
        m = ModuleId.Submodule g := by
  constructor
  · intro h
    simp only [get_generated_contract_module] at h
    split at h
    · exact absurd h (by simp)
    case _ mi hmi =>
      split at h
      case _ g hlk =>
        exact ⟨mi, g, hmi, hlk, (Except.ok.inj h).symm⟩
      case _ =>
        exact absurd h (by simp)
  · rintro ⟨mi, g, hmi, hlk, rfl⟩
    simp only [generated_module_name] at hlk
    simp [get_generated_contract_module, hmi, hlk]

theorem gef_ok_iff (db : SemanticGroup) (c : ContractDeclaration)
    (fns : List FreeFunctionId) :
    get_external_functions db c = Except.ok fns ↔
      ∃ g mi e, get_generated_contract_module db c = Except.ok g ∧
        db.module_items g = some mi ∧
        mi.items.lookup EXTERNAL_MODULE = some (ModuleItemId.Submodule e) ∧
        db.module_free_functions (ModuleId.Submodule e) = some fns := by
  constructor
  · intro h
    simp only [get_external_functions] at h
    split at h
    · exact absurd h (by simp)
    case _ g hg =>
      split at h
      · exact absurd h (by simp)
      case _ mi hmi =>
        split at h
        case _ e hlk =>
          split at h
          case _ l hfns =>
            obtain rfl := Except.ok.inj h
            exact ⟨g, mi, e, hg, hmi, hlk, hfns⟩
          case _ =>
            exact absurd h (by simp)
        case _ =>
          exact absurd h (by simp)
  · rintro ⟨g, mi, e, hg, hmi, hlk, hfns⟩
    simp [get_external_functions, hg, hmi, hlk, hfns]

theorem get_abi_ok_iff (db : SemanticGroup) (c : ContractDeclaration)
    (t : TraitId) :
    get_abi db c = Except.ok t ↔
      ∃ g mi, get_generated_contract_module db c = Except.ok g ∧
        db.module_items g = some mi ∧
        mi.items.lookup ABI_TRAIT = some (ModuleItemId.Trait t) := by
  constructor
  · intro h
    simp only [get_abi] at h
    split at h
    · exact absurd h (by simp)
    case _ g hg =>
      split at h
      · exact absurd h (by simp)
      case _ mi hmi =>
        split at h
        case _ t0 hlk =>
          obtain rfl := Except.ok.inj h
          exact ⟨g, mi, hg, hmi, hlk⟩
        case _ =>
          exact absurd h (by simp)
  · rintro ⟨g, mi, hg, hmi, hlk⟩
    simp [get_abi, hg, hmi, hlk]

theorem ggcm_error_of_no_submodule (db : SemanticGroup)
    (c : ContractDeclaration) (mi : ModuleItems)
    (hmi : db.module_items (db.submodule_module c.submodule_id) = some mi)
    (hno : ∀ g, mi.items.lookup (generated_module_name db c) ≠
      some (ModuleItemId.Submodule g)) :
    get_generated_contract_module db c =
      Except.error
        ("Failed to get generated module " ++ generated_module_name db c ++ ".") := by
  simp only [generated_module_name] at hno ⊢
  cases hlk : mi.items.lookup ("__generated__" ++ db.submodule_name c.submodule_id) with
  | none => simp [get_generated_contract_module, hmi, hlk]
  | some item =>
    cases item with
    | Submodule g => exact absurd hlk (hno g)
    | Trait t => simp [get_generated_contract_module, hmi, hlk]
    | FreeFunction f => simp [get_generated_contract_module, hmi, hlk]
    | Other n => simp [get_generated_contract_module, hmi, hlk]

theorem gef_error_of_no_submodule (db : SemanticGroup)
    (c : ContractDeclaration) (g : ModuleId) (mi : ModuleItems)
    (hg : get_generated_contract_module db c = Except.ok g)
    (hmi : db.module_items g = some mi)
    (hno : ∀ e, mi.items.lookup EXTERNAL_MODULE ≠
      some (ModuleItemId.Submodule e)) :
    get_external_functions db c =
      Except.error "Failed to get the entry points module." := by
  cases hlk : mi.items.lookup EXTERNAL_MODULE with
  | none => simp [get_external_functions, hg, hmi, hlk]
  | some item =>
    cases item with
    | Submodule e => exact absurd hlk (hno e)
    | Trait t => simp [get_external_functions, hg, hmi, hlk]
    | FreeFunction f => simp [get_external_functions, hg, hmi, hlk]
    | Other n => simp [get_external_functions, hg, hmi, hlk]

theorem get_abi_error_of_no_trait (db : SemanticGroup)
    (c : ContractDeclaration) (g : ModuleId) (mi : ModuleItems)
    (hg : get_generated_contract_module db c = Except.ok g)
    (hmi : db.module_items g = some mi)
    (hno : ∀ t, mi.items.lookup ABI_TRAIT ≠ some (ModuleItemId.Trait t)) :
    get_abi db c = Except.error "Failed to get the ABI trait." := by
  cases hlk : mi.items.lookup ABI_TRAIT with
  | none => simp [get_abi, hg, hmi, hlk]
  | some item =>
    cases item with
    | Submodule e => simp [get_abi, hg, hmi, hlk]
    | Trait t => exact absurd hlk (hno t)
    | FreeFunction f => simp [get_abi, hg, hmi, hlk]
    | Other n => simp [get_abi, hg, hmi, hlk]

/-- C3: `get_generated_contract_module` succeeds exactly when the parent
module's item set resolves and the key `"__generated__" ++ name` maps to a
submodule item, in which case it returns that submodule's module reference;
in every other outcome it fails with an error. -/
theorem C3_generated_module_resolution (db : SemanticGroup)
    (c : ContractDeclaration) :
    (∀ m, get_generated_contract_module db c = Except.ok m ↔
      ∃ mi g, db.module_items (db.submodule_module c.submodule_id) = some mi ∧
        mi.items.lookup (generated_module_name db c) =
          some (ModuleItemId.Submodule g) ∧
        m = ModuleId.Submodule g) ∧
    ((∀ m, get_generated_contract_module db c ≠ Except.ok m) →
      ∃ e, get_generated_contract_module db c = Except.error e) := by
  refine ⟨fun m => ggcm_ok_iff db c m, fun h => ?_⟩
  cases hg : get_generated_contract_module db c with
  | ok m => exact absurd hg (h m)
  | error e => exact ⟨e, rfl⟩

/-- C4: `get_external_functions` returns exactly the free functions of the
generated module's external-functions submodule, as the Index enumerates
them, and fails exactly when the generated module cannot be resolved, its
items fail to resolve, the external-functions name is absent or maps to a
non-submodule item, or the free-function query fails. -/
theorem C4_external_functions_characterization (db : SemanticGroup)
    (c : ContractDeclaration) :
    (∀ fns, get_external_functions db c = Except.ok fns ↔
      ∃ g mi e, get_generated_contract_module db c = Except.ok g ∧
        db.module_items g = some mi ∧
        mi.items.lookup EXTERNAL_MODULE = some (ModuleItemId.Submodule e) ∧
        db.module_free_functions (ModuleId.Submodule e) = some fns) ∧
    ((∀ fns, get_external_functions db c ≠ Except.ok fns) →
      ∃ e, get_external_functions db c = Except.error e) := by
  refine ⟨fun fns => gef_ok_iff db c fns, fun h => ?_⟩
  cases hg : get_external_functions db c with
  | ok fns => exact absurd hg (h fns)
  | error e => exact ⟨e, rfl⟩

/-- C5: `get_abi` returns the trait filed under the ABI-trait name in the
generated module and fails exactly when the generated module cannot be
resolved, its items fail to resolve, the name is absent, or it maps to a
non-trait item; moreover, when the generated module exists but the ABI
trait is missing, `get_abi` fails while the outcome of
`get_external_functions` is still characterized solely by the
external-functions chain, unaffected by the missing ABI name. -/
theorem C5_abi_characterization (db : SemanticGroup)
    (c : ContractDeclaration) :
    (∀ t, get_abi db c = Except.ok t ↔
      ∃ g mi, get_generated_contract_module db c = Except.ok g ∧
        db.module_items g = some mi ∧
        mi.items.lookup ABI_TRAIT = some (ModuleItemId.Trait t)) ∧
    (∀ g mi, get_generated_contract_module db c = Except.ok g →
      db.module_items g = some mi →
      (∀ t, mi.items.lookup ABI_TRAIT ≠ some (ModuleItemId.Trait t)) →
      (∃ e, get_abi db c = Except.error e) ∧
      (∀ fns, get_external_functions db c = Except.ok fns ↔
        ∃ e2, mi.items.lookup EXTERNAL_MODULE = some (ModuleItemId.Submodule e2) ∧
          db.module_free_functions (ModuleId.Submodule e2) = some fns)) := by
  refine ⟨fun t => get_abi_ok_iff db c t, fun g mi hg hmi hno => ?_⟩
  refine ⟨⟨_, get_abi_error_of_no_trait db c g mi hg hmi hno⟩, fun fns => ?_⟩
  constructor
  · intro h
    obtain ⟨g', mi', e, hg', hmi', hlk, hfns⟩ := (gef_ok_iff db c fns).mp h
    obtain rfl : g = g' := Except.ok.inj (hg.symm.trans hg')
    obtain rfl : mi = mi' := Option.some.inj (hmi.symm.trans hmi')
    exact ⟨e, hlk, hfns⟩
  · rintro ⟨e2, hlk, hfns⟩
    exact (gef_ok_iff db c fns).mpr ⟨g, mi, e2, hg, hmi, hlk, hfns⟩

/-- C7 counterexample: over an index whose parent-module item resolution
fails, `get_generated_contract_module` fails with the fixed error
`"Failed to get root module items."`, which does not carry the computed key
`"__generated__foo"` — refuting the claim that every failure of the
resolver carries the computed key string. -/
theorem C7_counterexample :
    get_generated_contract_module dbUnresolved c0 =
      Except.error "Failed to get root module items." ∧
    ¬ ((generated_module_name dbUnresolved c0).data <:+:
        "Failed to get root module items.".data) :=
  ⟨rfl, by decide⟩

/-- C7 (amended): when `get_generated_contract_module` fails because the
key is missing or maps to a non-submodule item, the error carries the
computed key string; when the parent module's item resolution itself fails,
the error is the fixed string `"Failed to get root module items."`, which
does not mention the key. -/
theorem C7_error_carries_key (db : SemanticGroup) (c : ContractDeclaration) :
    (∀ mi, db.module_items (db.submodule_module c.submodule_id) = some mi →
      (∀ g, mi.items.lookup (generated_module_name db c) ≠
        some (ModuleItemId.Submodule g)) →
      get_generated_contract_module db c =
        Except.error
          ("Failed to get generated module " ++ generated_module_name db c ++ ".") ∧
      (generated_module_name db c).data <:+:
        ("Failed to get generated module " ++ generated_module_name db c ++ ".").data) ∧
    (db.module_items (db.submodule_module c.submodule_id) = none →
      get_generated_contract_module db c =
        Except.error "Failed to get root module items.") := by
  constructor
  · intro mi hmi hno
    refine ⟨ggcm_error_of_no_submodule db c mi hmi hno, ?_⟩
    refine ⟨"Failed to get generated module ".data, ".".data, ?_⟩
    simp [String.data_append]
  · intro hmi
    simp [get_generated_contract_module, hmi]

/-- C10: in each of `get_generated_contract_module`,
`get_external_functions` and `get_abi`, a lookup name absent from the
resolved item set and a lookup name mapping to an item of the wrong kind
produce the identical error value, so the caller cannot distinguish the two
outcomes from the result. -/
theorem C10_absent_and_wrong_kind_same_error (db : SemanticGroup)
    (c : ContractDeclaration) :
    (∀ mi, db.module_items (db.submodule_module c.submodule_id) = some mi →
      (mi.items.lookup (generated_module_name db c) = none ∨
        (∃ item, mi.items.lookup (generated_module_name db c) = some item ∧
          ∀ g, item ≠ ModuleItemId.Submodule g)) →
      get_generated_contract_module db c =
        Except.error
          ("Failed to get generated module " ++ generated_module_name db c ++ ".")) ∧
    (∀ g mi, get_generated_contract_module db c = Except.ok g →
      db.module_items g = some mi →
      (mi.items.lookup EXTERNAL_MODULE = none ∨
        (∃ item, mi.items.lookup EXTERNAL_MODULE = some item ∧
          ∀ e, item ≠ ModuleItemId.Submodule e)) →
      get_external_functions db c =
        Except.error "Failed to get the entry points module.") ∧
    (∀ g mi, get_generated_contract_module db c = Except.ok g →
      db.module_items g = some mi →
      (mi.items.lookup ABI_TRAIT = none ∨
        (∃ item, mi.items.lookup ABI_TRAIT = some item ∧
          ∀ t, item ≠ ModuleItemId.Trait t)) →
      get_abi db c = Except.error "Failed to get the ABI trait.") := by
  refine ⟨fun mi hmi hcase => ?_, fun g mi hg hmi hcase => ?_,
    fun g mi hg hmi hcase => ?_⟩
  · refine ggcm_error_of_no_submodule db c mi hmi fun g hlk => ?_
    rcases hcase with hnone | ⟨item, hitem, hne⟩
    · exact Option.noConfusion (hnone.symm.trans hlk)
    · exact hne g (Option.some.inj (hitem.symm.trans hlk))
  · refine gef_error_of_no_submodule db c g mi hg hmi fun e hlk => ?_
    rcases hcase with hnone | ⟨item, hitem, hne⟩
    · exact Option.noConfusion (hnone.symm.trans hlk)
    · exact hne e (Option.some.inj (hitem.symm.trans hlk))
  · refine get_abi_error_of_no_trait db c g mi hg hmi fun t hlk => ?_
    rcases hcase with hnone | ⟨item, hitem, hne⟩
    · exact Option.noConfusion (hnone.symm.trans hlk)
    · exact hne t (Option.some.inj (hitem.symm.trans hlk))

/-- C9: `starknet_keccak`, `get_external_functions` and `get_abi` are
deterministic: two calls with the same input over the same index return
identical results (in the embedding all three are pure functions). -/
theorem C9_deterministic (s : List Nat) (db : SemanticGroup)
    (c : ContractDeclaration) :
    starknet_keccak s = starknet_keccak s ∧
    get_external_functions db c = get_external_functions db c ∧
    get_abi db c = get_abi db c :=
  ⟨rfl, rfl, rfl⟩

example : find_contracts dbFull [⟨0⟩] = [⟨⟨0⟩⟩] := by decide

example : get_generated_contract_module dbFull c0 =
    Except.ok (ModuleId.Submodule ⟨1⟩) := rfl

example : get_external_functions dbFull c0 = Except.ok [⟨100⟩, ⟨101⟩] := rfl

example : get_abi dbFull c0 = Except.ok ⟨7⟩ := rfl

example : get_abi dbNoAbi c0 = Except.error "Failed to get the ABI trait." := rfl

example : get_external_functions dbNoAbi c0 = Except.ok [⟨100⟩, ⟨101⟩] := rfl

example : get_generated_contract_module dbFull ⟨⟨9⟩⟩ =
    Except.error "Failed to get generated module __generated__bar." := rfl

end Contract
